import Mathlib

/-!
Verification of the vintageVision backend routes.

The JavaScript handlers in src/backend/routes are embedded shallowly:
each external HTTP or Firestore call becomes a field of an environment
record (a function from the call arguments to an Except value), cookies
and collections become explicit data, and each route handler becomes a
pure Lean function over that environment.  JavaScript truthiness on the
string-valued fields that the code tests with the bang or or-operator is
modelled by jsTruthy on Option String (none is undefined or null, and
the empty string is falsy).
-/

/-- Truthiness of a JavaScript string-ish value: undefined, null and the
empty string are falsy, every other string is truthy. -/
def jsTruthy : Option String → Bool
  | none => false
  | some s => !(s = "")

/-- The JavaScript or-operator on string-ish values: returns the left
operand when it is truthy, the right operand otherwise. -/
def jsOr (a b : Option String) : Option String :=
  if jsTruthy a then a else b

/-- An error thrown inside a handler: err.status (set by the local
cookie helpers) and err.response.status (set by axios on an HTTP error
from a downstream call). -/
structure JsError where
  status : Option Nat
  respStatus : Option Nat
  deriving DecidableEq, Repr

/-- The status that the catch-all of picker-start sends:
err.status or err.response.status or 500. -/
def JsError.sendStatus (e : JsError) : Nat :=
  e.status.getD (e.respStatus.getD 500)

/-- Body of a response of the Google Photos Picker sessions endpoint,
with every field name variant that the handler probes. -/
structure SessionResponse where
  id : Option String
  sessionId : Option String
  session_id : Option String
  pickerUri : Option String
  picker_uri : Option String
  picker_url : Option String
  deriving DecidableEq, Repr

/-- resp.data.id or resp.data.sessionId or resp.data.session_id, as in
photos.js line 139. -/
def extractSessionId (d : SessionResponse) : Option String :=
  jsOr (jsOr d.id d.sessionId) d.session_id

/-- resp.data.pickerUri or resp.data.picker_uri or resp.data.picker_url,
as in photos.js line 140. -/
def extractPickerUri (d : SessionResponse) : Option String :=
  jsOr (jsOr d.pickerUri d.picker_uri) d.picker_url

/-- Response of POST /api/photos/picker/start. -/
inductive PickerStartResp where
  /-- res.json with sessionId and pickerUri -/
  | ok (sessionId : String) (pickerUri : String)
  /-- the 500 response for a Google reply missing sessionId or pickerUri -/
  | invalidResponse
  /-- the catch-all error response with the given HTTP status -/
  | failed (status : Nat)
  deriving DecidableEq, Repr

/-- External calls made by POST /api/photos/picker/start. -/
structure PickerStartEnv where
  /-- POST photospicker sessions with a bearer token -/
  createSession : String → Except JsError SessionResponse
  /-- refreshAccessToken: exchanges the refresh token for an access
  token; on any failure the helper throws a plain Error without status -/
  refresh : String → Except Unit String

/-- Observable outcome of one run of the picker-start handler. -/
structure PickerStartResult where
  resp : PickerStartResp
  /-- value written to the google_access_token cookie, when any -/
  newAccessCookie : Option String
  /-- bearer tokens of the createSession attempts, in order -/
  attempts : List String
  /-- whether refreshAccessToken was invoked -/
  refreshAttempted : Bool
  deriving DecidableEq, Repr

/-- The tail of the picker-start handler (photos.js lines 136 to 160):
field-name-tolerant extraction of the session id and picker URI,
the 500 for a missing value, and the success JSON. -/
def pickerStartFinish (d : SessionResponse) : PickerStartResp :=
  let sid := extractSessionId d
  let uri := extractPickerUri d
  if !jsTruthy sid || !jsTruthy uri then .invalidResponse
  else .ok (sid.getD "") (uri.getD "")

/-- POST /api/photos/picker/start (photos.js lines 77 to 173).  Takes
the google_access_token, google_refresh_token and google_user_id
cookies.  On a 401 from the sessions call with a refresh token present
it refreshes, stores the new token in the cookie and retries once;
any other failure is rethrown to the catch-all. -/
def pickerStartHandler (env : PickerStartEnv)
    (accessToken refreshToken userIdCookie : Option String) :
    PickerStartResult :=
  match accessToken with
  | none => ⟨.failed 401, none, [], false⟩
  | some tok =>
    match userIdCookie with
    | none => ⟨.failed 401, none, [], false⟩
    | some _ =>
      match env.createSession tok with
      | .ok d => ⟨pickerStartFinish d, none, [tok], false⟩
      | .error e =>
        if e.respStatus = some 401 ∧ refreshToken.isSome then
          match env.refresh (refreshToken.getD "") with
          | .ok nt =>
            match env.createSession nt with
            | .ok d => ⟨pickerStartFinish d, some nt, [tok, nt], true⟩
            | .error e2 => ⟨.failed e2.sendStatus, some nt, [tok, nt], true⟩
          | .error _ => ⟨.failed 500, none, [tok], true⟩
        else
          ⟨.failed e.sendStatus, none, [tok], false⟩

/-- C6: the session id is taken from the first truthy field among id,
sessionId, session_id and the picker URL from the first truthy field
among pickerUri, picker_uri, picker_url; when the downstream call
succeeds the handler responds 500 exactly when one of the two values is
missing, and otherwise returns exactly the pair sessionId, pickerUri. -/
theorem pickerStart_field_tolerance (env : PickerStartEnv)
    (tok uid : String) (rt : Option String) (d : SessionResponse)
    (hcall : env.createSession tok = .ok d) :
    ((pickerStartHandler env (some tok) rt (some uid)).resp
        = .invalidResponse
      ↔ (¬ jsTruthy (extractSessionId d) ∨ ¬ jsTruthy (extractPickerUri d)))
    ∧ (∀ s u : String, extractSessionId d = some s → s ≠ "" →
        extractPickerUri d = some u → u ≠ "" →
        (pickerStartHandler env (some tok) rt (some uid)).resp = .ok s u) := by
  constructor
  · simp only [pickerStartHandler, hcall, pickerStartFinish]
    by_cases hs : jsTruthy (extractSessionId d) <;>
      by_cases hu : jsTruthy (extractPickerUri d) <;>
      simp [hs, hu]
  · intro s u hs hsne hu hune
    simp only [pickerStartHandler, hcall, pickerStartFinish]
    have hts : jsTruthy (some s) = true := by simp [jsTruthy, hsne]
    have htu : jsTruthy (some u) = true := by simp [jsTruthy, hune]
    simp [hs, hu, hts, htu]

/-- A picker-start environment whose sessions endpoint answers with the
session_id and picker_url field-name variants only. -/
def snakeCaseSessionEnv : PickerStartEnv where
  createSession := fun _ => .ok ⟨none, none, some "S", none, none, some "U"⟩
  refresh := fun _ => .error ()

/-- C6 witness: a Google reply carrying only the session_id and
picker_url variants is accepted by the handler. -/
theorem pickerStart_field_tolerance_witness :
    (pickerStartHandler snakeCaseSessionEnv (some "t") none (some "u")).resp
      = .ok "S" "U" :=
  (pickerStart_field_tolerance snakeCaseSessionEnv "t" "u" none _ rfl).2
    "S" "U" (by decide) (by decide) (by decide) (by decide)

/-- Does this character list begin with a match of the regular
expression fragment =w digits+ -h digits+ used by the proxy to find
size parameters in a Google Photos URL? -/
def matchSizeAt : List Char → Bool
  | '=' :: 'w' :: rest =>
    let ds := rest.takeWhile Char.isDigit
    decide (ds ≠ []) &&
      (match rest.dropWhile Char.isDigit with
       | '-' :: 'h' :: rest2 => decide (rest2.takeWhile Char.isDigit ≠ [])
       | _ => false)
  | _ => false

/-- Leftmost suffix of the character list at which matchSizeAt holds. -/
def findSizeTail : List Char → Option (List Char)
  | [] => none
  | c :: cs => if matchSizeAt (c :: cs) then some (c :: cs) else findSizeTail cs

/-- originalUrl.match of the pattern =w digits -h digits then anything
to the end of the string (photos.js line 526): the matched substring
runs from the leftmost size marker to the end of the URL. -/
def sizeSuffix (s : String) : Option String :=
  (findSizeTail s.data).map List.asString

/-- Building the sized URL from a fresh baseUrl (photos.js lines
524 to 531): append the size parameters of the original URL when it has
any, otherwise append =w400-h400. -/
def applySize (originalUrl newBaseUrl : String) : String :=
  match sizeSuffix originalUrl with
  | some sfx => newBaseUrl ++ sfx
  | none => newBaseUrl ++ "=w400-h400"

/-- External calls made by GET /api/photos/proxy. -/
structure ProxyEnv where
  /-- download an image URL with a bearer token -/
  fetchImage : String → String → Except JsError String
  /-- refreshAccessToken -/
  refresh : String → Except Unit String
  /-- GET photoslibrary mediaItems for a photo id with a bearer token;
  yields the baseUrl field of the reply, when present -/
  mediaItemsGet : String → String → Except JsError (Option String)
  /-- decodeURIComponent -/
  decode : String → String

/-- Response of GET /api/photos/proxy. -/
inductive ProxyResp where
  /-- proxied image bytes -/
  | ok (image : String)
  /-- error JSON with the given HTTP status -/
  | failed (status : Nat)
  deriving DecidableEq, Repr

/-- Observable outcome of one run of the proxy handler. -/
structure ProxyResult where
  resp : ProxyResp
  /-- value written to the google_access_token cookie, when any -/
  newAccessCookie : Option String
  /-- image downloads attempted, as url and token pairs, in order -/
  fetchCalls : List (String × String)
  /-- whether refreshAccessToken was invoked -/
  refreshAttempted : Bool
  deriving DecidableEq, Repr

/-- The catch-all of the proxy handler (photos.js lines 562 to 581):
401 and 403 get a dedicated body with the same status, any other
error is sent with err.response.status or 500. -/
def proxyCatch (e : JsError) : ProxyResp :=
  if e.respStatus = some 401 ∨ e.respStatus = some 403 then
    .failed (e.respStatus.getD 500)
  else
    .failed (e.respStatus.getD 500)

/-- GET /api/photos/proxy (photos.js lines 435 to 582).  First attempt
with the cookie token; on 401 or 403 with a refresh token, refresh,
store the new token in the cookie and retry once; if an image is still
missing and the original failure was 403 or 404 and a photoId was
supplied, fetch a fresh baseUrl from the Photos Library API and try the
download once more; otherwise the original error is rethrown. -/
def photosProxyHandler (env : ProxyEnv)
    (urlParam photoIdParam accessToken refreshToken : Option String) :
    ProxyResult :=
  if !jsTruthy urlParam then ⟨.failed 400, none, [], false⟩
  else
    match accessToken with
    | none => ⟨.failed 500, none, [], false⟩
    | some tok =>
      let originalUrl := env.decode (urlParam.getD "")
      match env.fetchImage originalUrl tok with
      | .ok img => ⟨.ok img, none, [(originalUrl, tok)], false⟩
      | .error e =>
        -- state after the first failed download
        let s := e.respStatus
        -- refresh-and-retry branch
        let afterRetry :
            Option String × Option String × List (String × String) × Bool :=
          if (s = some 401 ∨ s = some 403) ∧ refreshToken.isSome then
            match env.refresh (refreshToken.getD "") with
            | .ok nt =>
              match env.fetchImage originalUrl nt with
              | .ok img => (some img, some nt, [(originalUrl, nt)], true)
              | .error _ => (none, some nt, [(originalUrl, nt)], true)
            | .error _ => (none, none, [], true)
          else (none, none, [], false)
        match afterRetry with
        | (imageResponse, cookie, retryCalls, refreshed) =>
          let activeToken := cookie.getD tok
          match imageResponse with
          | some img =>
            ⟨.ok img, cookie, (originalUrl, tok) :: retryCalls, refreshed⟩
          | none =>
            if (s = some 403 ∨ s = some 404) ∧ jsTruthy photoIdParam then
              match env.mediaItemsGet (photoIdParam.getD "") activeToken with
              | .ok (some newBaseUrl) =>
                let sizedUrl := applySize originalUrl newBaseUrl
                match env.fetchImage sizedUrl activeToken with
                | .ok img =>
                  ⟨.ok img, cookie,
                    (originalUrl, tok) :: retryCalls ++ [(sizedUrl, activeToken)],
                    refreshed⟩
                | .error _ =>
                  ⟨proxyCatch e, cookie,
                    (originalUrl, tok) :: retryCalls ++ [(sizedUrl, activeToken)],
                    refreshed⟩
              | .ok none =>
                ⟨proxyCatch e, cookie, (originalUrl, tok) :: retryCalls,
                  refreshed⟩
              | .error _ =>
                ⟨proxyCatch e, cookie, (originalUrl, tok) :: retryCalls,
                  refreshed⟩
            else
              ⟨proxyCatch e, cookie, (originalUrl, tok) :: retryCalls, refreshed⟩

/-- A picker-start environment whose sessions endpoint always fails
with HTTP 403 and whose token endpoint would succeed. -/
def forbidden403SessionEnv : PickerStartEnv where
  createSession := fun _ => .error ⟨none, some 403⟩
  refresh := fun _ => .ok "NEW"

/-- C1 counterexample: the picker-session route receives a 403 from the
downstream call while a refresh-token cookie is present, yet it never
invokes the refresh helper, sets no cookie, makes no retry, and
propagates the 403 — refuting the claim that a 403 triggers the
refresh-and-retry. -/
theorem tokenRefresh_403_counterexample :
    pickerStartHandler forbidden403SessionEnv (some "T") (some "R") (some "U")
      = ⟨.failed 403, none, ["T"], false⟩ := by decide

/-- C1 amended: the picker-session route refreshes and retries exactly
once only on a 401 (any other failure, 403 included, is propagated with
no refresh even when a refresh token is present, and so is a failure
with no refresh token); the proxy route refreshes and retries once on
401 or 403, and when it still has no image and the original failure was
403 with a photoId supplied it additionally fetches a fresh baseUrl and
tries the download once more, even with no refresh token; a 401 with no
refresh token, or a failed retry on a 401, is propagated. -/
theorem tokenRefresh_amended
    (env : PickerStartEnv) (penv : ProxyEnv)
    (tok rt nt uid url pid : String) (e : JsError)
    (hurl : url ≠ "") :
    (env.createSession tok = .error e → e.respStatus = some 401 →
      env.refresh rt = .ok nt →
      (pickerStartHandler env (some tok) (some rt) (some uid)).newAccessCookie
          = some nt
        ∧ (pickerStartHandler env (some tok) (some rt) (some uid)).attempts
          = [tok, nt])
    ∧ (env.createSession tok = .error e → e.respStatus = some 401 →
        env.refresh rt = .ok nt →
        ∀ e2, env.createSession nt = .error e2 →
        (pickerStartHandler env (some tok) (some rt) (some uid)).resp
          = .failed e2.sendStatus)
    ∧ (env.createSession tok = .error e → e.respStatus ≠ some 401 →
        pickerStartHandler env (some tok) (some rt) (some uid)
          = ⟨.failed e.sendStatus, none, [tok], false⟩)
    ∧ (env.createSession tok = .error e →
        pickerStartHandler env (some tok) none (some uid)
          = ⟨.failed e.sendStatus, none, [tok], false⟩)
    ∧ (penv.fetchImage (penv.decode url) tok = .error e →
        (e.respStatus = some 401 ∨ e.respStatus = some 403) →
        penv.refresh rt = .ok nt →
        ∀ img, penv.fetchImage (penv.decode url) nt = .ok img →
        photosProxyHandler penv (some url) (some pid) (some tok) (some rt)
          = ⟨.ok img, some nt,
              [(penv.decode url, tok), (penv.decode url, nt)], true⟩)
    ∧ (penv.fetchImage (penv.decode url) tok = .error e →
        e.respStatus = some 401 →
        penv.refresh rt = .ok nt →
        ∀ e2, penv.fetchImage (penv.decode url) nt = .error e2 →
        photosProxyHandler penv (some url) (some pid) (some tok) (some rt)
          = ⟨.failed 401, some nt,
              [(penv.decode url, tok), (penv.decode url, nt)], true⟩)
    ∧ (penv.fetchImage (penv.decode url) tok = .error e →
        e.respStatus = some 403 → pid ≠ "" →
        ∀ nb img, penv.mediaItemsGet pid tok = .ok (some nb) →
        penv.fetchImage (applySize (penv.decode url) nb) tok = .ok img →
        photosProxyHandler penv (some url) (some pid) (some tok) none
          = ⟨.ok img, none,
              [(penv.decode url, tok),
               (applySize (penv.decode url) nb, tok)], false⟩)
    ∧ (penv.fetchImage (penv.decode url) tok = .error e →
        e.respStatus = some 401 →
        photosProxyHandler penv (some url) (some pid) (some tok) none
          = ⟨.failed 401, none, [(penv.decode url, tok)], false⟩) := by
  have hturl : jsTruthy (some url) = true := by simp [jsTruthy, hurl]
  refine ⟨?_, ?_, ?_, ?_, ?_, ?_, ?_, ?_⟩
  · intro hc hs hr
    cases h2 : env.createSession nt <;>
      simp [pickerStartHandler, hc, hs, hr, h2]
  · intro hc hs hr e2 hc2
    simp [pickerStartHandler, hc, hs, hr, hc2]
  · intro hc hs
    simp [pickerStartHandler, hc, hs]
  · intro hc
    simp [pickerStartHandler, hc]
  · intro hf hs hr img hf2
    rcases hs with hs | hs <;>
      simp [photosProxyHandler, hturl, hf, hs, hr, hf2]
  · intro hf hs hr e2 hf2
    simp [photosProxyHandler, hturl, hf, hs, hr, hf2, proxyCatch]
  · intro hf hs hpid nb img hm hf3
    have htpid : jsTruthy (some pid) = true := by simp [jsTruthy, hpid]
    simp [photosProxyHandler, hturl, htpid, hf, hs, hm, hf3]
  · intro hf hs
    simp [photosProxyHandler, hturl, hf, hs, proxyCatch]

/-- A picker-start environment that answers 401 for the stale token and
succeeds for the refreshed token NT. -/
def pickerRefreshEnv : PickerStartEnv where
  createSession := fun t =>
    if t = "NT" then .ok ⟨some "S", none, none, some "U", none, none⟩
    else .error ⟨none, some 401⟩
  refresh := fun _ => .ok "NT"

/-- A proxy environment whose image host answers 401 for the stale
token and serves the image for the refreshed token NT. -/
def proxyRefreshEnv : ProxyEnv where
  fetchImage := fun _ t =>
    if t = "NT" then .ok "IMG" else .error ⟨none, some 401⟩
  refresh := fun _ => .ok "NT"
  mediaItemsGet := fun _ _ => .ok none
  decode := fun s => s

/-- C1 amended witness: on a concrete 401 both the picker-session route
and the proxy route store the refreshed token in the cookie and retry
the failed call exactly once. -/
theorem tokenRefresh_amended_witness :
    ((pickerStartHandler pickerRefreshEnv (some "T") (some "R") (some "U")).newAccessCookie
        = some "NT"
      ∧ (pickerStartHandler pickerRefreshEnv (some "T") (some "R") (some "U")).attempts
        = ["T", "NT"])
    ∧ photosProxyHandler proxyRefreshEnv (some "url") (some "pid") (some "T") (some "R")
        = ⟨.ok "IMG", some "NT", [("url", "T"), ("url", "NT")], true⟩ :=
  ⟨(tokenRefresh_amended pickerRefreshEnv proxyRefreshEnv
      "T" "R" "NT" "U" "url" "pid" ⟨none, some 401⟩ (by decide)).1
      rfl rfl rfl,
   (tokenRefresh_amended pickerRefreshEnv proxyRefreshEnv
      "T" "R" "NT" "U" "url" "pid" ⟨none, some 401⟩ (by decide)).2.2.2.2.1
      rfl (Or.inl rfl) rfl "IMG" rfl⟩

/-- A simplified picked media item, as built by the items handler from
a PickedMediaItem (photos.js lines 250 to 274); id is item.id or
mediaFile.id or null. -/
structure PickedPhoto where
  id : Option String
  baseUrl : Option String
  mimeType : Option String
  filename : Option String
  type : Option String
  width : Option Nat
  height : Option Nat
  creationTime : Option String
  deriving DecidableEq, Repr

/-- A document of the userPhotos collection as written by the items
handler (photos.js lines 330 to 347). -/
structure StoredPhoto where
  userId : String
  sessionId : String
  source : String
  createdAt : Nat
  status : String
  photoId : Option String
  baseUrl : Option String
  filename : String
  mimeType : Option String
  width : Option Nat
  height : Option Nat
  creationTime : Option String
  type : Option String
  deriving DecidableEq, Repr

/-- Splitting the photo-id list into batches of at most 10 for the
Firestore in-queries (photos.js lines 289 to 291). -/
def chunks10 : List String → List (List String)
  | [] => []
  | x :: xs => ((x :: xs).take 10) :: chunks10 ((x :: xs).drop 10)
termination_by l => l.length
decreasing_by simp; omega

/-- The batches cover the photo-id list exactly. -/
theorem chunks10_flatten (l : List String) : (chunks10 l).flatten = l := by
  induction l using chunks10.induct with
  | case1 => simp [chunks10]
  | case2 x xs ih =>
    rw [chunks10]
    simp only [List.flatten_cons, ih, List.take_append_drop]

/-- One batched Firestore query of the items handler (photos.js lines
292 to 302): documents of this user whose photoId is in the batch,
keeping each truthy photoId. -/
def queryBatch (store : List StoredPhoto) (u : String) (b : List String) :
    List String :=
  store.filterMap fun r =>
    match r.photoId with
    | some i => if r.userId = u ∧ i ∈ b ∧ i ≠ "" then some i else none
    | none => none

/-- The existing-photo-id set accumulated over all batches
(photos.js lines 286 to 304). -/
def existingPhotoIds (store : List StoredPhoto) (u : String)
    (photoIds : List String) : List String :=
  ((chunks10 photoIds).map (queryBatch store u)).flatten

/-- The id list queried against Firestore: ids of the picked items,
keeping only truthy ones (photos.js line 284). -/
def pickedPhotoIds (items : List PickedPhoto) : List String :=
  items.filterMap fun p => if jsTruthy p.id then p.id else none

/-- The save filter of the items handler (photos.js lines 309 to 319):
an item with no id is always saved, an item whose id is already stored
is skipped. -/
def shouldSave (ex : List String) (p : PickedPhoto) : Bool :=
  if !jsTruthy p.id then true else !(decide (p.id.getD "" ∈ ex))

/-- The items that the handler will write in this poll. -/
def photosToSave (store : List StoredPhoto) (u : String)
    (items : List PickedPhoto) : List PickedPhoto :=
  items.filter (shouldSave (existingPhotoIds store u (pickedPhotoIds items)))

/-- The userPhotos document built for one saved item (photos.js lines
330 to 347); the filename falls back to photo underscore index plus
one. -/
def toStored (now : Nat) (u sess : String) (idx : Nat) (p : PickedPhoto) :
    StoredPhoto where
  userId := u
  sessionId := sess
  source := "google_photos_picker"
  createdAt := now
  status := "pending"
  photoId := p.id
  baseUrl := p.baseUrl
  filename :=
    if jsTruthy p.filename then p.filename.getD ""
    else "photo_" ++ toString (idx + 1)
  mimeType := p.mimeType
  width := p.width
  height := p.height
  creationTime := p.creationTime
  type := p.type

/-- The Firestore mirroring step of one poll of the picker-items
endpoint (photos.js lines 278 to 364): batch-insert the picked items
that pass the skip-if-exists filter. -/
def mirrorPickedItems (now : Nat) (u sess : String)
    (items : List PickedPhoto) (store : List StoredPhoto) :
    List StoredPhoto :=
  if items.isEmpty then store
  else
    store ++
      ((photosToSave store u items).enum.map fun pr =>
        toStored now u sess pr.1 pr.2)

/-- Membership in a batched query result. -/
theorem mem_queryBatch (store : List StoredPhoto) (u : String)
    (b : List String) (i : String) :
    i ∈ queryBatch store u b ↔
      ∃ r ∈ store, r.userId = u ∧ r.photoId = some i ∧ i ∈ b ∧ i ≠ "" := by
  simp only [queryBatch, List.mem_filterMap]
  constructor
  · rintro ⟨r, hr, heq⟩
    cases hp : r.photoId with
    | none => rw [hp] at heq; simp at heq
    | some j =>
      rw [hp] at heq
      by_cases hc : r.userId = u ∧ j ∈ b ∧ j ≠ ""
      · have hji : j = i := by simpa [hc] using heq
        subst hji
        exact ⟨r, hr, hc.1, hp, hc.2.1, hc.2.2⟩
      · simp [hc] at heq
  · rintro ⟨r, hr, hu, hp, hb, hne⟩
    refine ⟨r, hr, ?_⟩
    rw [hp]
    simp [hu, hb, hne]

/-- Membership in the accumulated existing-id set: an id is found
exactly when it is among the queried ids and some stored record of this
user carries it. -/
theorem mem_existingPhotoIds (store : List StoredPhoto) (u : String)
    (pids : List String) (i : String) :
    i ∈ existingPhotoIds store u pids ↔
      (i ∈ pids ∧ i ≠ "" ∧ ∃ r ∈ store, r.userId = u ∧ r.photoId = some i) := by
  have hpids : i ∈ pids ↔ ∃ b ∈ chunks10 pids, i ∈ b := by
    conv_lhs => rw [← chunks10_flatten pids]
    exact List.mem_flatten
  simp only [existingPhotoIds, List.mem_flatten, List.mem_map]
  constructor
  · rintro ⟨q, ⟨b, hb, rfl⟩, hq⟩
    rcases (mem_queryBatch store u b i).1 hq with ⟨r, hr, hu, hp, hib, hne⟩
    exact ⟨hpids.2 ⟨b, hb, hib⟩, hne, r, hr, hu, hp⟩
  · rintro ⟨hip, hne, r, hr, hu, hp⟩
    rcases hpids.1 hip with ⟨b, hb, hib⟩
    exact ⟨queryBatch store u b, ⟨b, hb, rfl⟩,
      (mem_queryBatch store u b i).2 ⟨r, hr, hu, hp, hib, hne⟩⟩

/-- Every member of a list appears in its enumeration from any base. -/
theorem exists_mem_enumFrom {α : Type} (l : List α) (p : α) (hp : p ∈ l)
    (n : Nat) : ∃ k, (k, p) ∈ l.enumFrom n := by
  induction l generalizing n with
  | nil => cases hp
  | cons x xs ih =>
    rcases List.mem_cons.1 hp with h | h
    · subst h
      exact ⟨n, by simp [List.enumFrom]⟩
    · rcases ih h (n + 1) with ⟨k, hk⟩
      exact ⟨k, by simp [List.enumFrom, hk]⟩

/-- Every member of a list appears in its enumeration. -/
theorem exists_mem_enum {α : Type} (l : List α) (p : α) (hp : p ∈ l) :
    ∃ k, (k, p) ∈ l.enum :=
  exists_mem_enumFrom l p hp 0

/-- A picked item that carries no media id (item.id and mediaFile.id
both missing). -/
def unidentifiedPhoto : PickedPhoto :=
  ⟨none, some "b", none, none, none, none, none, none⟩

/-- C2 counterexample: a picked item without an id is saved again by
every poll — two polls of the same session insert its metadata twice,
so the mirroring is not idempotent as claimed. -/
theorem mirror_not_idempotent_counterexample :
    (mirrorPickedItems 1 "u" "s" [unidentifiedPhoto]
        (mirrorPickedItems 0 "u" "s" [unidentifiedPhoto] [])).length = 2
    ∧ (mirrorPickedItems 0 "u" "s" [unidentifiedPhoto] []).length = 1 := by
  decide

/-- C2 amended: for picked items that all carry an id, the mirroring is
idempotent — a photo whose userId and photoId pair is already stored is
skipped, so a second poll of the same completed session inserts
nothing. -/
theorem mirror_idempotent (now1 now2 : Nat) (u sess : String)
    (items : List PickedPhoto) (store : List StoredPhoto)
    (h : ∀ p ∈ items, jsTruthy p.id) :
    mirrorPickedItems now2 u sess items
        (mirrorPickedItems now1 u sess items store)
      = mirrorPickedItems now1 u sess items store := by
  by_cases hempty : items.isEmpty
  · simp [mirrorPickedItems, hempty]
  · have hsave :
        photosToSave (mirrorPickedItems now1 u sess items store) u items
          = [] := by
      rw [photosToSave, List.filter_eq_nil_iff]
      intro p hmem
      have hid := h p hmem
      cases hpid : p.id with
      | none => rw [hpid] at hid; simp [jsTruthy] at hid
      | some i =>
        rw [hpid] at hid
        have hne : i ≠ "" := by
          intro hcon; rw [hcon] at hid; simp [jsTruthy] at hid
        -- the id is among the queried ids
        have hipids : i ∈ pickedPhotoIds items := by
          refine List.mem_filterMap.2 ⟨p, hmem, ?_⟩
          rw [hpid]
          simp [jsTruthy, hne]
        -- some record of the first poll result carries the id
        have hrec : ∃ r ∈ mirrorPickedItems now1 u sess items store,
            r.userId = u ∧ r.photoId = some i := by
          by_cases hc :
              shouldSave
                (existingPhotoIds store u (pickedPhotoIds items)) p = true
          · have hsaved : p ∈ photosToSave store u items :=
              List.mem_filter.2 ⟨hmem, hc⟩
            rcases exists_mem_enum _ p hsaved with ⟨k, hk⟩
            refine ⟨toStored now1 u sess k p, ?_, rfl, by simp [toStored, hpid]⟩
            rw [mirrorPickedItems, if_neg hempty]
            exact List.mem_append_right _
              (List.mem_map.2 ⟨(k, p), hk, rfl⟩)
          · have hex : i ∈ existingPhotoIds store u (pickedPhotoIds items) := by
              have hb := eq_false_of_ne_true hc
              rw [shouldSave, hpid] at hb
              simpa [jsTruthy, hne] using hb
            rcases (mem_existingPhotoIds store u
                (pickedPhotoIds items) i).1 hex with ⟨_, _, r, hr, hu, hp⟩
            refine ⟨r, ?_, hu, hp⟩
            rw [mirrorPickedItems, if_neg hempty]
            exact List.mem_append_left _ hr
        rcases hrec with ⟨r, hr, hu, hp⟩
        have hex1 : i ∈ existingPhotoIds
            (mirrorPickedItems now1 u sess items store) u
            (pickedPhotoIds items) :=
          (mem_existingPhotoIds _ u _ i).2 ⟨hipids, hne, r, hr, hu, hp⟩
        rw [shouldSave, hpid]
        simp [jsTruthy, hne, hex1]
    rw [mirrorPickedItems, if_neg hempty, hsave]
    simp

/-- A picked item carrying the media id A. -/
def identifiedPhoto : PickedPhoto :=
  ⟨some "A", some "b", none, none, none, none, none, none⟩

/-- C2 amended witness: polling twice with a concrete identified item
leaves the store of the first poll unchanged. -/
theorem mirror_idempotent_witness :
    mirrorPickedItems 1 "u" "s" [identifiedPhoto]
        (mirrorPickedItems 0 "u" "s" [identifiedPhoto] [])
      = mirrorPickedItems 0 "u" "s" [identifiedPhoto] [] :=
  mirror_idempotent 0 1 "u" "s" [identifiedPhoto] [] (by decide)

/-- Equality is decidable on Except values with decidable components. -/
instance {ε α : Type} [DecidableEq ε] [DecidableEq α] :
    DecidableEq (Except ε α) := fun x y =>
  match x, y with
  | .ok a, .ok b =>
    if h : a = b then isTrue (by rw [h])
    else isFalse (fun hh => h (by injection hh))
  | .error a, .error b =>
    if h : a = b then isTrue (by rw [h])
    else isFalse (fun hh => h (by injection hh))
  | .ok _, .error _ => isFalse (fun hh => Except.noConfusion hh)
  | .error _, .ok _ => isFalse (fun hh => Except.noConfusion hh)

/-- The search_queries object of a Gemini reply: each language field is
present or absent. -/
structure SearchQueries where
  en : Option (List String)
  zh : Option (List String)
  deriving DecidableEq, Repr

/-- The object obtained from a successful JSON.parse of the cleaned
Gemini reply; each schema field may be missing.  Candidates are kept
abstract as strings. -/
structure GeminiParsed where
  era_primary : Option String
  style_tags : Option (List String)
  top3_candidates : Option (List String)
  rationale : Option String
  search_queries : Option SearchQueries
  shopping_tips : Option (List String)
  deriving DecidableEq, Repr

/-- The object returned by runGemini: the parsed fields after
normalisation, plus the parse_error flag and model_used marker that
only the parse-failure fallback sets. -/
structure GeminiOut where
  era_primary : Option String
  style_tags : Option (List String)
  top3_candidates : Option (List String)
  rationale : Option String
  search_queries : Option SearchQueries
  shopping_tips : Option (List String)
  parse_error : Bool
  model_used : Option String
  deriving DecidableEq, Repr

/-- The normalisation that runGemini applies to a successfully parsed
reply (analysis.js lines 490 to 504): delete the zh field of
search_queries when present, then fill defaults for every missing
schema field. -/
def normalizeParsed (p : GeminiParsed) : GeminiOut :=
  let sq0 : Option SearchQueries :=
    match p.search_queries with
    | some q => some (if q.zh.isSome then { q with zh := none } else q)
    | none => none
  { era_primary :=
      if jsTruthy p.era_primary then p.era_primary else some "Undetermined"
    style_tags := if p.style_tags.isSome then p.style_tags else some []
    top3_candidates :=
      if p.top3_candidates.isSome then p.top3_candidates else some []
    rationale :=
      if jsTruthy p.rationale then p.rationale
      else some "No rationale provided."
    search_queries := if sq0.isSome then sq0 else some ⟨some [], none⟩
    shopping_tips :=
      if p.shopping_tips.isSome then p.shopping_tips else some []
    parse_error := false
    model_used := none }

/-- The default object runGemini returns when JSON.parse fails
(analysis.js lines 509 to 518). -/
def geminiFallback (modelName : String) : GeminiOut where
  era_primary := some "Undetermined"
  style_tags := some []
  top3_candidates := some []
  rationale := some "Failed to parse analysis result. Please try again."
  search_queries := some ⟨some [], none⟩
  shopping_tips := some []
  parse_error := true
  model_used := some modelName

/-- The post-processing of runGemini given the outcome of cleaning and
parsing the model reply (the fence stripping, brace extraction and
JSON.parse of analysis.js lines 475 to 490 are folded into this
Option: none when no JSON object could be parsed). -/
def runGeminiPost (parseOutcome : Option GeminiParsed) (modelName : String) :
    GeminiOut :=
  match parseOutcome with
  | some p => normalizeParsed p
  | none => geminiFallback modelName

/-- runGemini as a whole (analysis.js lines 367 to 524): a failure of
the generative call itself is rethrown, a parse failure is not. -/
def runGeminiResult (api : Except Unit (Option GeminiParsed))
    (modelName : String) : Except Unit GeminiOut :=
  match api with
  | .error e => .error e
  | .ok p => .ok (runGeminiPost p modelName)

/-- A truthy string-ish value is present. -/
theorem jsTruthy_isSome (o : Option String) (h : jsTruthy o = true) :
    o.isSome := by
  cases o <;> simp_all [jsTruthy]

/-- C10: every object runGemini returns — normalised parse or fallback —
carries all six schema fields with defined values, and its
search_queries object never carries a zh field. -/
theorem runGemini_schema_invariant (p : Option GeminiParsed) (m : String) :
    (runGeminiPost p m).era_primary.isSome
    ∧ (runGeminiPost p m).style_tags.isSome
    ∧ (runGeminiPost p m).top3_candidates.isSome
    ∧ (runGeminiPost p m).rationale.isSome
    ∧ (runGeminiPost p m).search_queries.isSome
    ∧ (runGeminiPost p m).shopping_tips.isSome
    ∧ (runGeminiPost p m).search_queries.bind SearchQueries.zh = none := by
  cases p with
  | none => simp [runGeminiPost, geminiFallback]
  | some q =>
    refine ⟨?_, ?_, ?_, ?_, ?_, ?_, ?_⟩ <;>
      simp only [runGeminiPost, normalizeParsed]
    · split
      · exact jsTruthy_isSome _ (by assumption)
      · simp
    · split <;> simp_all
    · split <;> simp_all
    · split
      · exact jsTruthy_isSome _ (by assumption)
      · simp
    · cases hsq : q.search_queries <;> simp [hsq]
    · split <;> simp_all
    · cases hsq : q.search_queries with
      | none => simp [hsq]
      | some qq => cases hzh : qq.zh <;> simp [hsq, hzh]

/-- The combined analysis document built by the analyze route
(analysis.js lines 606 to 620). -/
structure AnalyzeResultData where
  userId : String
  photoId : String
  imageUrl : String
  baseUrl : String
  visionFeatures : String
  geminiResult : Option GeminiOut
  analyzedAt : Nat
  status : String
  docId : Option String
  deriving DecidableEq, Repr

/-- The slice of a userPhotos document that the save fallbacks read. -/
structure UserPhotoDoc where
  userId : String
  baseUrl : Option String
  deriving DecidableEq, Repr

/-- A Firestore write attempted by the analyze route. -/
inductive WriteOp where
  /-- set on results slash id -/
  | setResult (id : String) (d : AnalyzeResultData)
  /-- update of the userPhotos document with status analyzed,
  analyzedAt and the full analysisResult -/
  | updateFull (docId : String) (now : Nat) (d : AnalyzeResultData)
  /-- update of the userPhotos document with only status analyzed and
  analyzedAt -/
  | updateStatus (docId : String) (now : Nat)
  deriving DecidableEq, Repr

/-- Outcomes of the Firestore operations the save sequence performs. -/
structure SaveEnv where
  /-- does the set on the results collection throw? -/
  resultsSetFails : Bool
  /-- the get of the userPhotos document in the second strategy -/
  userPhotoGet1 : Except Unit (Option UserPhotoDoc)
  /-- does the full update of the second strategy throw? -/
  update1Fails : Bool
  /-- the get of the userPhotos document in the third strategy -/
  userPhotoGet2 : Except Unit (Option UserPhotoDoc)
  /-- does the status update of the third strategy throw? -/
  update2Fails : Bool
  deriving DecidableEq, Repr

/-- Observable outcome of the save sequence. -/
structure SaveOutcome where
  resultId : String
  saved : Bool
  /-- Firestore writes attempted, in order, including ones that threw -/
  writes : List WriteOp
  respSuccess : Bool
  respResult : AnalyzeResultData
  deriving DecidableEq, Repr

/-- The third storage strategy (analysis.js lines 675 to 689): update
only status and analyzedAt of the userPhotos document when it exists
and belongs to the user; the saved flag stays false either way, so the
route falls back to a temporary result id. -/
def saveMethod3 (env : SaveEnv) (userId photoId : String) (now : Nat)
    (writes : List WriteOp) (rdCur : AnalyzeResultData) : SaveOutcome :=
  let temp := "temp_" ++ toString now
  match env.userPhotoGet2 with
  | .ok (some doc2) =>
    if doc2.userId = userId then
      if !env.update2Fails then
        ⟨temp, false, writes ++ [.updateStatus photoId now], true, rdCur⟩
      else
        ⟨temp, false, writes ++ [.updateStatus photoId now], true, rdCur⟩
    else ⟨temp, false, writes, true, rdCur⟩
  | .ok none => ⟨temp, false, writes, true, rdCur⟩
  | .error _ => ⟨temp, false, writes, true, rdCur⟩

/-- The three-strategy save sequence of the analyze route (analysis.js
lines 622 to 697): set into results; on failure, for a short photoId,
write the full result into the userPhotos document with status
analyzed; on failure again, update only status and analyzedAt; the
response succeeds in every case. -/
def saveAnalysis (env : SaveEnv) (userId photoId : String)
    (rd : AnalyzeResultData) (now : Nat) (rand : String) : SaveOutcome :=
  let genId := userId ++ "_" ++ toString now ++ "_" ++ rand
  if !env.resultsSetFails then
    ⟨genId, true, [.setResult genId rd], true, rd⟩
  else
    if photoId ≠ "" ∧ photoId.length < 30 then
      match env.userPhotoGet1 with
      | .ok (some doc) =>
        if doc.userId = userId then
          let rd2 :=
            if rd.baseUrl = "" ∧ jsTruthy doc.baseUrl then
              { rd with baseUrl := doc.baseUrl.getD ""
                        imageUrl := doc.baseUrl.getD "" }
            else rd
          if !env.update1Fails then
            ⟨photoId, true,
              [.setResult genId rd, .updateFull photoId now rd2], true, rd2⟩
          else
            saveMethod3 env userId photoId now
              [.setResult genId rd, .updateFull photoId now rd2] rd2
        else
          saveMethod3 env userId photoId now [.setResult genId rd] rd
      | .ok none =>
        saveMethod3 env userId photoId now [.setResult genId rd] rd
      | .error _ =>
        saveMethod3 env userId photoId now [.setResult genId rd] rd
    else
      ⟨"temp_" ++ toString now, false, [.setResult genId rd], true, rd⟩

/-- The save sequence always reports success to the client. -/
theorem saveAnalysis_respSuccess (env : SaveEnv) (userId photoId : String)
    (rd : AnalyzeResultData) (now : Nat) (rand : String) :
    (saveAnalysis env userId photoId rd now rand).respSuccess = true := by
  unfold saveAnalysis saveMethod3
  repeat' split
  all_goals rfl

/-- C3: when the primary write into results fails, the analyze handler
tries, in order, writing the full result into the userPhotos document
of the photo with status analyzed, then updating only status and
analyzedAt; and whenever nothing was saved it still responds success
true with the temporary resultId temp underscore timestamp and the
result data. -/
theorem storage_fallback_chain (env : SaveEnv) (userId photoId : String)
    (rd : AnalyzeResultData) (now : Nat) (rand : String) (doc : UserPhotoDoc)
    (hfail : env.resultsSetFails = true)
    (hshort : photoId ≠ "" ∧ photoId.length < 30) :
    (env.userPhotoGet1 = .ok (some doc) → doc.userId = userId →
      env.update1Fails = false → rd.baseUrl ≠ "" →
      saveAnalysis env userId photoId rd now rand
        = ⟨photoId, true,
            [.setResult (userId ++ "_" ++ toString now ++ "_" ++ rand) rd,
             .updateFull photoId now rd], true, rd⟩)
    ∧ (env.userPhotoGet1 = .ok (some doc) → doc.userId = userId →
        env.update1Fails = true → rd.baseUrl ≠ "" →
        env.userPhotoGet2 = .ok (some doc) →
        saveAnalysis env userId photoId rd now rand
          = ⟨"temp_" ++ toString now, false,
              [.setResult (userId ++ "_" ++ toString now ++ "_" ++ rand) rd,
               .updateFull photoId now rd,
               .updateStatus photoId now], true, rd⟩)
    ∧ ((saveAnalysis env userId photoId rd now rand).saved = false →
        (saveAnalysis env userId photoId rd now rand).respSuccess = true
        ∧ (saveAnalysis env userId photoId rd now rand).resultId
            = "temp_" ++ toString now) := by
  refine ⟨?_, ?_, ?_⟩
  · intro hget hdoc hupd hbase
    simp [saveAnalysis, hfail, hshort, hget, hdoc, hupd, hbase]
  · intro hget hdoc hupd hbase hget2
    simp [saveAnalysis, saveMethod3, hfail, hshort, hget, hdoc, hupd, hbase,
      hget2]
  · intro hns
    refine ⟨saveAnalysis_respSuccess env userId photoId rd now rand, ?_⟩
    revert hns
    unfold saveAnalysis saveMethod3
    simp only [hfail, Bool.not_true]
    repeat' split
    all_goals intro hns
    all_goals simp_all

/-- A save environment whose primary results write throws and whose
userPhotos document p exists and belongs to user u. -/
def failingResultsEnv : SaveEnv where
  resultsSetFails := true
  userPhotoGet1 := .ok (some ⟨"u", some "B"⟩)
  update1Fails := false
  userPhotoGet2 := .ok (some ⟨"u", some "B"⟩)
  update2Fails := false

/-- A concrete combined analysis document. -/
def sampleResultData : AnalyzeResultData where
  userId := "u"
  photoId := "p"
  imageUrl := "b"
  baseUrl := "b"
  visionFeatures := "v"
  geminiResult := none
  analyzedAt := 5
  status := "completed"
  docId := some "p"

/-- C3 witness: with the primary write failing on a concrete input, the
second strategy stores the full result in the userPhotos document and
the response succeeds. -/
theorem storage_fallback_chain_witness :
    saveAnalysis failingResultsEnv "u" "p" sampleResultData 5 "r"
      = ⟨"p", true,
          [.setResult ("u" ++ "_" ++ toString 5 ++ "_" ++ "r")
            sampleResultData,
           .updateFull "p" 5 sampleResultData], true, sampleResultData⟩ :=
  (storage_fallback_chain failingResultsEnv "u" "p" sampleResultData 5 "r"
    ⟨"u", some "B"⟩ rfl (by decide)).1 rfl rfl rfl (by decide)

/-- Response of POST /api/analysis/analyze as far as the claims need:
HTTP status, the success flag and the resultId of the body. -/
structure AnalyzeResponse where
  status : Nat
  success : Bool
  resultId : Option String
  deriving DecidableEq, Repr

/-- The replacement object the analyze route substitutes when the
runGemini result carries parse_error (analysis.js lines 589 to 600). -/
def analyzeParseErrorFallback : GeminiOut where
  era_primary := some "Unknown"
  style_tags := some []
  top3_candidates := some []
  rationale := some "Analysis incomplete due to parsing error."
  search_queries := some ⟨some [], some []⟩
  shopping_tips := some []
  parse_error := false
  model_used := none

/-- POST /api/analysis/analyze (analysis.js lines 531 to 714): validate
photoId and imageUrl, run Vision, run Gemini when an API key is set
(substituting the parse-error fallback), build the result document and
run the three-strategy save; any Vision or Gemini throw becomes the
500 analysis-failed response. -/
def analyzeHandler (env : SaveEnv) (userId : String)
    (photoId imageUrl baseUrl : Option String)
    (vision : Except Unit String) (geminiApiKeySet : Bool)
    (gemini : Except Unit GeminiOut) (now : Nat) (rand : String) :
    AnalyzeResponse :=
  if !jsTruthy photoId || !jsTruthy imageUrl then ⟨400, false, none⟩
  else
    match vision with
    | .error _ => ⟨500, false, none⟩
    | .ok vf =>
      let geminiOutcome : Except Unit (Option GeminiOut) :=
        if geminiApiKeySet then
          match gemini with
          | .error e => .error e
          | .ok g =>
            .ok (some (if g.parse_error then analyzeParseErrorFallback else g))
        else .ok none
      match geminiOutcome with
      | .error _ => ⟨500, false, none⟩
      | .ok gr =>
        let pid := photoId.getD ""
        let rd : AnalyzeResultData :=
          { userId := userId
            photoId := pid
            imageUrl := (jsOr baseUrl imageUrl).getD ""
            baseUrl := (jsOr baseUrl imageUrl).getD ""
            visionFeatures := vf
            geminiResult := gr
            analyzedAt := now
            status := "completed"
            docId := if pid.length < 30 then some pid else none }
        let so := saveAnalysis env userId pid rd now rand
        ⟨200, so.respSuccess, some so.resultId⟩

/-- C4: when the cleaned Gemini reply cannot be parsed as JSON,
runGemini does not throw but returns the fallback object — era_primary
Undetermined, empty lists in style_tags, top3_candidates, the
search_queries en list and shopping_tips, a fixed rationale message and
the parse_error flag — and the analyze request still responds 200 with
success true. -/
theorem gemini_parse_failure_graceful (m : String) (env : SaveEnv)
    (userId : String) (photoId imageUrl baseUrl : Option String)
    (vf : String) (now : Nat) (rand : String) :
    runGeminiResult (.ok none) m = .ok (geminiFallback m)
    ∧ (geminiFallback m).era_primary = some "Undetermined"
    ∧ (geminiFallback m).style_tags = some []
    ∧ (geminiFallback m).top3_candidates = some []
    ∧ (geminiFallback m).search_queries = some ⟨some [], none⟩
    ∧ (geminiFallback m).shopping_tips = some []
    ∧ (geminiFallback m).parse_error = true
    ∧ (jsTruthy photoId → jsTruthy imageUrl →
        (analyzeHandler env userId photoId imageUrl baseUrl (.ok vf) true
            (.ok (geminiFallback m)) now rand).status = 200
        ∧ (analyzeHandler env userId photoId imageUrl baseUrl (.ok vf) true
            (.ok (geminiFallback m)) now rand).success = true) := by
  refine ⟨rfl, rfl, rfl, rfl, rfl, rfl, rfl, ?_⟩
  intro hp hi
  simp only [analyzeHandler, hp, hi]
  simp [saveAnalysis_respSuccess]

/-- C4 witness: a concrete unparseable reply yields the fallback and a
successful analyze response. -/
theorem gemini_parse_failure_graceful_witness :
    runGeminiResult (.ok none) "gemini-2.5-flash"
        = .ok (geminiFallback "gemini-2.5-flash")
    ∧ (analyzeHandler failingResultsEnv "u" (some "p") (some "b") none
        (.ok "v") true (.ok (geminiFallback "gemini-2.5-flash")) 5 "r").success
        = true :=
  ⟨(gemini_parse_failure_graceful "gemini-2.5-flash" failingResultsEnv "u"
      (some "p") (some "b") none "v" 5 "r").1,
   ((gemini_parse_failure_graceful "gemini-2.5-flash" failingResultsEnv "u"
      (some "p") (some "b") none "v" 5 "r").2.2.2.2.2.2.2
      (by decide) (by decide)).2⟩

/-- A document of the results collection as read by the results-list
route.  The store list is kept in Firestore key order: an unordered
query returns documents in that order. -/
structure ResultDoc where
  id : String
  userId : String
  analyzedAt : Nat
  photoId : String
  imageUrl : String
  baseUrl : String
  geminiResult : Option GeminiOut
  deriving DecidableEq, Repr

/-- Stable insertion into a descending-by-analyzedAt list: an element
goes before the first element with an equal or smaller timestamp, as a
stable descending sort (the V8 sort with comparator b minus a) does. -/
def insertByAnalyzedAtDesc (x : ResultDoc) :
    List ResultDoc → List ResultDoc
  | [] => [x]
  | y :: ys =>
    if y.analyzedAt ≤ x.analyzedAt then x :: y :: ys
    else y :: insertByAnalyzedAtDesc x ys

/-- Stable descending sort by analyzedAt. -/
def sortByAnalyzedAtDesc (l : List ResultDoc) : List ResultDoc :=
  l.foldr insertByAnalyzedAtDesc []

/-- The primary query of GET /api/analysis/results (analysis.js lines
753 to 759): documents of this user ordered by analyzedAt descending,
limited. -/
def orderedResultsQuery (store : List ResultDoc) (u : String)
    (limit : Nat) : List ResultDoc :=
  (sortByAnalyzedAtDesc (store.filter (fun r => r.userId = u))).take limit

/-- The fallback of GET /api/analysis/results when orderBy fails
(analysis.js lines 760 to 782): an unordered limited query for the same
user, an in-memory descending sort, and truncation to the limit. -/
def fallbackResultsQuery (store : List ResultDoc) (u : String)
    (limit : Nat) : List ResultDoc :=
  let docs := (store.filter (fun r => r.userId = u)).take limit
  (sortByAnalyzedAtDesc docs).take limit

/-- The item projection of the results-list route (analysis.js lines
784 to 794). -/
structure ResultItem where
  id : String
  photoId : String
  imageUrl : String
  baseUrl : String
  analyzedAt : Nat
  geminiResult : Option GeminiOut
  deriving DecidableEq, Repr

/-- Projecting a results document to a list item. -/
def toResultItem (r : ResultDoc) : ResultItem :=
  ⟨r.id, r.photoId, r.imageUrl, r.baseUrl, r.analyzedAt, r.geminiResult⟩

/-- The item list of the primary path. -/
def orderedResultsItems (store : List ResultDoc) (u : String)
    (limit : Nat) : List ResultItem :=
  (orderedResultsQuery store u limit).map toResultItem

/-- The item list of the fallback path. -/
def fallbackResultsItems (store : List ResultDoc) (u : String)
    (limit : Nat) : List ResultItem :=
  (fallbackResultsQuery store u limit).map toResultItem

/-- Stable insertion grows the length by one. -/
theorem length_insertByAnalyzedAtDesc (x : ResultDoc) (l : List ResultDoc) :
    (insertByAnalyzedAtDesc x l).length = l.length + 1 := by
  induction l with
  | nil => rfl
  | cons y ys ih =>
    rw [insertByAnalyzedAtDesc]
    split
    · rfl
    · simp [ih]

/-- The stable sort preserves length. -/
theorem length_sortByAnalyzedAtDesc (l : List ResultDoc) :
    (sortByAnalyzedAtDesc l).length = l.length := by
  induction l with
  | nil => rfl
  | cons y ys ih =>
    simp [sortByAnalyzedAtDesc, List.foldr_cons] at ih ⊢
    rw [length_insertByAnalyzedAtDesc, ih]

/-- An older and a newer analysis result of the same user, stored in
key order with the older document first. -/
def olderResult : ResultDoc := ⟨"a", "u", 1, "p1", "i1", "b1", none⟩

/-- The newer of the two stored analysis results. -/
def newerResult : ResultDoc := ⟨"b", "u", 2, "p2", "i2", "b2", none⟩

/-- C7 counterexample: with two stored results and limit 1 the primary
path returns the newer result but the fallback path truncates before
sorting and returns the older one, so the two paths disagree. -/
theorem results_listing_counterexample :
    orderedResultsItems [olderResult, newerResult] "u" 1
        = [toResultItem newerResult]
    ∧ fallbackResultsItems [olderResult, newerResult] "u" 1
        = [toResultItem olderResult]
    ∧ orderedResultsItems [olderResult, newerResult] "u" 1
        ≠ fallbackResultsItems [olderResult, newerResult] "u" 1 := by
  decide

/-- C7 amended: the fallback truncates to the limit before sorting, so
it may drop the newest results; the two paths produce the same item
list whenever the user has at most limit stored results. -/
theorem results_listing_equiv (store : List ResultDoc) (u : String)
    (limit : Nat)
    (h : (store.filter (fun r => r.userId = u)).length ≤ limit) :
    fallbackResultsItems store u limit = orderedResultsItems store u limit := by
  unfold fallbackResultsItems orderedResultsItems fallbackResultsQuery
    orderedResultsQuery
  rw [List.take_of_length_le h,
    List.take_of_length_le (by rw [length_sortByAnalyzedAtDesc]; exact h)]

/-- C7 amended witness: with two stored results and limit 5 the two
paths agree. -/
theorem results_listing_equiv_witness :
    fallbackResultsItems [olderResult, newerResult] "u" 5
      = orderedResultsItems [olderResult, newerResult] "u" 5 :=
  results_listing_equiv [olderResult, newerResult] "u" 5 (by decide)

/-- Reading a document of a collection by id. -/
def docGet {α : Type} (store : List (String × α)) (id : String) :
    Option α :=
  (store.find? (fun e => e.1 = id)).map (fun e => e.2)

/-- Deleting a document of a collection by id. -/
def docDelete {α : Type} (store : List (String × α)) (id : String) :
    List (String × α) :=
  store.filter (fun e => e.1 ≠ id)

/-- Outcome of DELETE /api/photos/:photoId: HTTP status and the
userPhotos collection afterwards. -/
structure DeletePhotoResult where
  status : Nat
  store : List (String × StoredPhoto)
  deriving DecidableEq, Repr

/-- DELETE /api/photos/:photoId (photos.js lines 700 to 744). -/
def deletePhotoHandler (store : List (String × StoredPhoto))
    (userIdCookie : Option String) (photoId : String) : DeletePhotoResult :=
  match userIdCookie with
  | none => ⟨401, store⟩
  | some userId =>
    if photoId = "" then ⟨400, store⟩
    else
      match docGet store photoId with
      | none => ⟨404, store⟩
      | some d =>
        if d.userId ≠ userId then ⟨403, store⟩
        else ⟨200, docDelete store photoId⟩

/-- Outcome of GET /api/analysis/result/:resultId: HTTP status and the
returned document, when any. -/
structure GetResultResult where
  status : Nat
  body : Option AnalyzeResultData
  deriving DecidableEq, Repr

/-- GET /api/analysis/result/:resultId (analysis.js lines 720 to 740). -/
def getResultHandler (store : List (String × AnalyzeResultData))
    (userIdCookie : Option String) (resultId : String) : GetResultResult :=
  match userIdCookie with
  | none => ⟨401, none⟩
  | some userId =>
    match docGet store resultId with
    | none => ⟨404, none⟩
    | some d =>
      if d.userId ≠ userId then ⟨403, none⟩ else ⟨200, some d⟩

/-- Outcome of DELETE /api/analysis/result/:resultId: HTTP status and
the results collection afterwards. -/
structure DeleteResultResult where
  status : Nat
  store : List (String × AnalyzeResultData)
  deriving DecidableEq, Repr

/-- DELETE /api/analysis/result/:resultId (analysis.js lines 807
to 845). -/
def deleteResultHandler (store : List (String × AnalyzeResultData))
    (userIdCookie : Option String) (resultId : String) : DeleteResultResult :=
  match userIdCookie with
  | none => ⟨401, store⟩
  | some userId =>
    match docGet store resultId with
    | none => ⟨404, store⟩
    | some d =>
      if d.userId ≠ userId then ⟨403, store⟩
      else ⟨200, docDelete store resultId⟩

/-- C8: on the photo-delete, result-get and result-delete routes, a
stored document whose userId differs from the google_user_id cookie
yields 403 with the document neither returned nor deleted; a document
is deleted (or returned) only when it exists and belongs to the
requester, and a missing document yields 404. -/
theorem ownership_enforced (pstore : List (String × StoredPhoto))
    (rstore : List (String × AnalyzeResultData)) (uid pid rid : String) :
    (∀ d, docGet pstore pid = some d → d.userId ≠ uid → pid ≠ "" →
      deletePhotoHandler pstore (some uid) pid = ⟨403, pstore⟩)
    ∧ (∀ d, docGet pstore pid = some d → d.userId = uid → pid ≠ "" →
        deletePhotoHandler pstore (some uid) pid
          = ⟨200, docDelete pstore pid⟩)
    ∧ (docGet pstore pid = none → pid ≠ "" →
        deletePhotoHandler pstore (some uid) pid = ⟨404, pstore⟩)
    ∧ (∀ d, docGet rstore rid = some d → d.userId ≠ uid →
        getResultHandler rstore (some uid) rid = ⟨403, none⟩)
    ∧ (∀ d, docGet rstore rid = some d → d.userId = uid →
        getResultHandler rstore (some uid) rid = ⟨200, some d⟩)
    ∧ (docGet rstore rid = none →
        getResultHandler rstore (some uid) rid = ⟨404, none⟩)
    ∧ (∀ d, docGet rstore rid = some d → d.userId ≠ uid →
        deleteResultHandler rstore (some uid) rid = ⟨403, rstore⟩)
    ∧ (∀ d, docGet rstore rid = some d → d.userId = uid →
        deleteResultHandler rstore (some uid) rid
          = ⟨200, docDelete rstore rid⟩)
    ∧ (docGet rstore rid = none →
        deleteResultHandler rstore (some uid) rid = ⟨404, rstore⟩) := by
  refine ⟨?_, ?_, ?_, ?_, ?_, ?_, ?_, ?_, ?_⟩
  · intro d hg hne hpid
    simp [deletePhotoHandler, hpid, hg, hne]
  · intro d hg he hpid
    simp [deletePhotoHandler, hpid, hg, he]
  · intro hg hpid
    simp [deletePhotoHandler, hpid, hg]
  · intro d hg hne
    simp [getResultHandler, hg, hne]
  · intro d hg he
    simp [getResultHandler, hg, he]
  · intro hg
    simp [getResultHandler, hg]
  · intro d hg hne
    simp [deleteResultHandler, hg, hne]
  · intro d hg he
    simp [deleteResultHandler, hg, he]
  · intro hg
    simp [deleteResultHandler, hg]

/-- A stored photo belonging to user v. -/
def foreignStoredPhoto : StoredPhoto :=
  ⟨"v", "s", "google_photos_picker", 0, "pending", some "A", some "b",
    "f", none, none, none, none, none⟩

/-- A stored analysis result belonging to user v. -/
def foreignResultDoc : AnalyzeResultData :=
  ⟨"v", "p", "i", "b", "vf", none, 1, "completed", none⟩

/-- C8 witness: user u requesting documents of user v gets 403 on all
three routes, with the stores untouched and no body returned. -/
theorem ownership_enforced_witness :
    deletePhotoHandler [("p1", foreignStoredPhoto)] (some "u") "p1"
        = ⟨403, [("p1", foreignStoredPhoto)]⟩
    ∧ getResultHandler [("r1", foreignResultDoc)] (some "u") "r1"
        = ⟨403, none⟩
    ∧ deleteResultHandler [("r1", foreignResultDoc)] (some "u") "r1"
        = ⟨403, [("r1", foreignResultDoc)]⟩ :=
  ⟨(ownership_enforced [("p1", foreignStoredPhoto)] [("r1", foreignResultDoc)]
      "u" "p1" "r1").1 foreignStoredPhoto rfl (by decide) (by decide),
   (ownership_enforced [("p1", foreignStoredPhoto)] [("r1", foreignResultDoc)]
      "u" "p1" "r1").2.2.2.1 foreignResultDoc rfl (by decide),
   (ownership_enforced [("p1", foreignStoredPhoto)] [("r1", foreignResultDoc)]
      "u" "p1" "r1").2.2.2.2.2.2.1 foreignResultDoc rfl (by decide)⟩

/-- Token endpoint reply fields used by the callback. -/
structure TokenData where
  access_token : String
  refresh_token : Option String
  deriving DecidableEq, Repr

/-- Google userinfo reply fields used by the callback. -/
structure GoogleUser where
  id : String
  email : Option String
  name : Option String
  picture : Option String
  deriving DecidableEq, Repr

/-- Outcome of the guarded Firestore profile write: success, a thrown
error, or the five-second Promise.race timeout. -/
inductive FirestoreOutcome where
  | ok
  | failed
  | timeout
  deriving DecidableEq, Repr

/-- The profile write as raced against the timeout (googleAuth.js lines
131 to 147): a thrown error and the timeout both reject. -/
def profileWriteStep (outcome : FirestoreOutcome) : Except Unit Unit :=
  match outcome with
  | .ok => .ok ()
  | .failed => .error ()
  | .timeout => .error ()

/-- External calls made by GET /api/auth/google/callback. -/
structure CallbackEnv where
  /-- exchange the authorization code for tokens -/
  tokenExchange : String → Except Unit TokenData
  /-- fetch userinfo with the access token -/
  userInfo : String → Except Unit GoogleUser
  /-- outcome of the Firestore profile write -/
  profileWrite : FirestoreOutcome

/-- A cookie set by the callback. -/
structure SetCookie where
  name : String
  value : String
  httpOnly : Bool
  deriving DecidableEq, Repr

/-- The merge write at users slash googleUserId (googleAuth.js lines
128 to 141); lastLoginAt and createdAt are server timestamps and are
not modelled. -/
structure ProfileWriteReq where
  collection : String
  docId : String
  googleUserId : String
  email : Option String
  name : Option String
  picture : Option String
  merge : Bool
  deriving DecidableEq, Repr

/-- The page the callback sends. -/
inductive CallbackPage where
  /-- the page for an error query parameter -/
  | oauthError (e : String)
  /-- the page for a missing authorization code -/
  | noCode
  /-- the login-successful page -/
  | success
  /-- the catch-all login-error page -/
  | failure
  deriving DecidableEq, Repr

/-- Observable outcome of one run of the callback. -/
structure CallbackResult where
  page : CallbackPage
  cookies : List SetCookie
  /-- the profile write attempted, when the flow got that far -/
  profileWriteReq : Option ProfileWriteReq
  deriving DecidableEq, Repr

/-- GET /api/auth/google/callback (googleAuth.js lines 40 to 280):
exchange the code, fetch userinfo, attempt the guarded profile write
(its rejection is caught and only logged), then set the session cookies
and send the success page; a throw of the exchange or the userinfo
fetch reaches the outer catch and sends the error page. -/
def googleCallbackHandler (env : CallbackEnv)
    (code errorParam : Option String) : CallbackResult :=
  if jsTruthy errorParam then ⟨.oauthError (errorParam.getD ""), [], none⟩
  else if !jsTruthy code then ⟨.noCode, [], none⟩
  else
    match env.tokenExchange (code.getD "") with
    | .error _ => ⟨.failure, [], none⟩
    | .ok td =>
      match env.userInfo td.access_token with
      | .error _ => ⟨.failure, [], none⟩
      | .ok gu =>
        let req : ProfileWriteReq :=
          ⟨"users", gu.id, gu.id, gu.email, gu.name, gu.picture, true⟩
        match profileWriteStep env.profileWrite with
        | .ok _ =>
          ⟨.success,
            [⟨"google_user_id", gu.id, true⟩,
             ⟨"google_access_token", td.access_token, true⟩]
            ++ (if jsTruthy td.refresh_token then
                  [⟨"google_refresh_token", td.refresh_token.getD "", true⟩]
                else []),
            some req⟩
        | .error _ =>
          -- the rejection is caught at lines 149 to 153 and only logged,
          -- so the flow continues identically
          ⟨.success,
            [⟨"google_user_id", gu.id, true⟩,
             ⟨"google_access_token", td.access_token, true⟩]
            ++ (if jsTruthy td.refresh_token then
                  [⟨"google_refresh_token", td.refresh_token.getD "", true⟩]
                else []),
            some req⟩

/-- C5: on a callback carrying a code, with the token exchange and the
userinfo fetch succeeding, the handler attempts the merge write of the
minimal profile at users slash googleUserId, sets the httpOnly cookies
google_user_id and google_access_token, adds google_refresh_token
exactly when a refresh token was returned, and sends the success
page. -/
theorem oauth_callback_success (env : CallbackEnv) (c at_ : String)
    (rt : Option String) (gu : GoogleUser) (hc : c ≠ "")
    (hex : env.tokenExchange c = .ok ⟨at_, rt⟩)
    (hui : env.userInfo at_ = .ok gu) :
    (googleCallbackHandler env (some c) none).profileWriteReq
        = some ⟨"users", gu.id, gu.id, gu.email, gu.name, gu.picture, true⟩
    ∧ (googleCallbackHandler env (some c) none).cookies
        = [⟨"google_user_id", gu.id, true⟩,
           ⟨"google_access_token", at_, true⟩]
          ++ (if jsTruthy rt then
                [⟨"google_refresh_token", rt.getD "", true⟩]
              else [])
    ∧ (googleCallbackHandler env (some c) none).page = .success
    ∧ (∀ r, rt = some r → r ≠ "" →
        (⟨"google_refresh_token", r, true⟩ : SetCookie)
          ∈ (googleCallbackHandler env (some c) none).cookies) := by
  have htc : jsTruthy (some c) = true := by simp [jsTruthy, hc]
  refine ⟨?_, ?_, ?_, ?_⟩
  · cases hw : profileWriteStep env.profileWrite <;>
      simp [googleCallbackHandler, jsTruthy, htc, hc, hex, hui, hw]
  · cases hw : profileWriteStep env.profileWrite <;>
      simp [googleCallbackHandler, jsTruthy, htc, hc, hex, hui, hw]
  · cases hw : profileWriteStep env.profileWrite <;>
      simp [googleCallbackHandler, jsTruthy, htc, hc, hex, hui, hw]
  · intro r hr hrne
    cases hw : profileWriteStep env.profileWrite <;>
      simp [googleCallbackHandler, jsTruthy, htc, hc, hex, hui, hw, hr, hrne]

/-- C9: a failure or five-second timeout of the Firestore profile write
does not abort the login — the callback result (page, cookies, write
request) is the same for every write outcome — and with the exchange
and the userinfo fetch succeeding, the success page is sent with the
session cookies set; the error page is sent exactly when the token
exchange or the userinfo fetch throws. -/
theorem profile_write_failure_tolerated (env : CallbackEnv)
    (c at_ : String) (rt : Option String) (gu : GoogleUser) (hc : c ≠ "") :
    (∀ fs1 fs2 : FirestoreOutcome,
      googleCallbackHandler ⟨env.tokenExchange, env.userInfo, fs1⟩
          (some c) none
        = googleCallbackHandler ⟨env.tokenExchange, env.userInfo, fs2⟩
          (some c) none)
    ∧ (env.tokenExchange c = .ok ⟨at_, rt⟩ → env.userInfo at_ = .ok gu →
        (googleCallbackHandler env (some c) none).page = .success
        ∧ (⟨"google_user_id", gu.id, true⟩ : SetCookie)
            ∈ (googleCallbackHandler env (some c) none).cookies
        ∧ (⟨"google_access_token", at_, true⟩ : SetCookie)
            ∈ (googleCallbackHandler env (some c) none).cookies)
    ∧ ((googleCallbackHandler env (some c) none).page = .failure ↔
        env.tokenExchange c = .error () ∨
        ∃ td, env.tokenExchange c = .ok td
          ∧ env.userInfo td.access_token = .error ()) := by
  have htc : jsTruthy (some c) = true := by simp [jsTruthy, hc]
  refine ⟨?_, ?_, ?_⟩
  · intro fs1 fs2
    cases hex : env.tokenExchange c with
    | error e => simp [googleCallbackHandler, jsTruthy, htc, hc, hex]
    | ok td =>
      cases hui : env.userInfo td.access_token with
      | error e => simp [googleCallbackHandler, jsTruthy, htc, hc, hex, hui]
      | ok gu2 =>
        cases hw1 : profileWriteStep fs1 <;>
          cases hw2 : profileWriteStep fs2 <;>
          simp [googleCallbackHandler, jsTruthy, htc, hc, hex, hui, hw1, hw2]
  · intro hex hui
    cases hw : profileWriteStep env.profileWrite <;>
      simp [googleCallbackHandler, jsTruthy, htc, hc, hex, hui, hw]
  · cases hex : env.tokenExchange c with
    | error e => simp [googleCallbackHandler, jsTruthy, htc, hc, hex]
    | ok td =>
      cases hui : env.userInfo td.access_token with
      | error e =>
        simp [googleCallbackHandler, jsTruthy, htc, hc, hex, hui]
      | ok gu2 =>
        cases hw : profileWriteStep env.profileWrite <;>
          simp [googleCallbackHandler, jsTruthy, htc, hc, hex, hui, hw]

/-- A callback environment where the exchange and the userinfo fetch
succeed and the profile write succeeds. -/
def callbackEnvOk : CallbackEnv where
  tokenExchange := fun _ => .ok ⟨"AT", some "RT"⟩
  userInfo := fun _ => .ok ⟨"G1", some "mail", some "N", some "P"⟩
  profileWrite := .ok

/-- The same callback environment with the profile write timing out. -/
def callbackEnvTimeout : CallbackEnv where
  tokenExchange := fun _ => .ok ⟨"AT", some "RT"⟩
  userInfo := fun _ => .ok ⟨"G1", some "mail", some "N", some "P"⟩
  profileWrite := .timeout

/-- C5 witness: a concrete successful callback sends the success page
and attempts the merge write of the minimal profile. -/
theorem oauth_callback_success_witness :
    (googleCallbackHandler callbackEnvOk (some "CODE") none).page
        = CallbackPage.success
    ∧ (googleCallbackHandler callbackEnvOk (some "CODE") none).profileWriteReq
        = some ⟨"users", "G1", "G1", some "mail", some "N", some "P", true⟩ :=
  ⟨(oauth_callback_success callbackEnvOk "CODE" "AT" (some "RT")
      ⟨"G1", some "mail", some "N", some "P"⟩ (by decide) rfl rfl).2.2.1,
   (oauth_callback_success callbackEnvOk "CODE" "AT" (some "RT")
      ⟨"G1", some "mail", some "N", some "P"⟩ (by decide) rfl rfl).1⟩

/-- C9 witness: with the profile write timing out on a concrete input,
the success page is still sent. -/
theorem profile_write_failure_tolerated_witness :
    (googleCallbackHandler callbackEnvTimeout (some "CODE") none).page
      = CallbackPage.success :=
  ((profile_write_failure_tolerated callbackEnvTimeout "CODE" "AT"
      (some "RT") ⟨"G1", some "mail", some "N", some "P"⟩
      (by decide)).2.1 rfl rfl).1
